import Mathlib

/-!
Verification of the `ai-generate-commit` CLI (Go) against its design
specification.  The Go sources are shallowly embedded: pure string
processing becomes Lean functions on `String`/`List Char`; subprocess,
terminal and network interaction become explicit environments holding the
outcome of each external call, and functions return the list of effects
they performed together with their result.  Strings are treated as
sequences of characters (the repository only ever slices ASCII status
codes, so Go's byte indexing and character indexing coincide on the
inputs of interest).
-/

namespace AIGenCommit

/-! ### String helpers

Go's `strings.TrimSpace` trims leading and trailing Unicode white space;
the ASCII white-space characters are modelled here.  `strings.Split`
splits on every occurrence of the separator.  Both are re-defined by
structural recursion on the character list so that all definitions
evaluate inside the kernel. -/

/-- ASCII white space, as recognised by Go's `unicode.IsSpace`. -/
def isSpaceChar (c : Char) : Bool :=
  c = ' ' || c = '\t' || c = '\n' || c = '\x0b' || c = '\x0c' || c = '\r'

/-- Trim white space from both ends of a character list. -/
def trimChars (l : List Char) : List Char :=
  ((l.dropWhile isSpaceChar).reverse.dropWhile isSpaceChar).reverse

/-- Go `strings.TrimSpace`. -/
def trimSpace (s : String) : String :=
  ⟨trimChars s.data⟩

/-- Split a character list on a separator character (Go `strings.Split`
with a one-character separator). -/
def splitOnCharAux (sep : Char) : List Char → List Char → List (List Char)
  | [], acc => [acc.reverse]
  | c :: rest, acc =>
    if c = sep then acc.reverse :: splitOnCharAux sep rest []
    else splitOnCharAux sep rest (c :: acc)

/-- Split a string into the list of fields between occurrences of `sep`. -/
def splitOnChar (sep : Char) (s : String) : List String :=
  (splitOnCharAux sep s.data []).map String.mk

/-- Go slice `s[:n]` (character level). -/
def strTake (s : String) (n : Nat) : String := ⟨s.data.take n⟩

/-- Go slice `s[n:]` (character level). -/
def strDrop (s : String) (n : Nat) : String := ⟨s.data.drop n⟩

/-- Go `len(s)` (character level; coincides with bytes on ASCII). -/
def strLength (s : String) : Nat := s.data.length

/-! ### Version-control adapter (`internal/git/git.go`) -/

/-- `FileStatus` from `internal/git/git.go`: a file's path and its
human-readable Git status. -/
structure FileStatus where
  path : String
  status : String
deriving DecidableEq, Repr

/-- `translateStatus` from `internal/git/git.go`: translates a Git status
code into a human-readable string; the lookup is an exact match with
default `"Unknown"`. -/
def translateStatus (status : String) : String :=
  if status = "M" then "Modified"
  else if status = "A" then "Added"
  else if status = "D" then "Deleted"
  else if status = "R" then "Renamed"
  else if status = "C" then "Copied"
  else if status = "U" then "Updated but unmerged"
  else if status = "??" then "Untracked"
  else "Unknown"

/-- `filterEmptyStrings` from `internal/git/git.go`: removes empty
strings from a slice of strings, keeping order. -/
def filterEmptyStrings : List String → List String
  | [] => []
  | s :: rest =>
    if s ≠ "" then s :: filterEmptyStrings rest
    else filterEmptyStrings rest

/-- `execGitCommand` trims the subprocess output; `GetStagedFiles` then
splits the trimmed output of `git diff --name-only --cached` on newlines
and filters out empty strings.  The argument is the raw stdout of the
subprocess. -/
def getStagedFiles (output : String) : List String :=
  filterEmptyStrings (splitOnChar '\n' (trimSpace output))

/-- The loop body of `GetChangedFiles` from `internal/git/git.go`,
applied to the scanner's lines: a line shorter than 4 characters is
skipped; otherwise the first two characters (trimmed) are the status code
and the characters from position 3 on (trimmed) are the path. -/
def getChangedFilesFromLines : List String → List FileStatus
  | [] => []
  | line :: rest =>
    if strLength line < 4 then getChangedFilesFromLines rest
    else
      { path := trimSpace (strDrop line 3),
        status := translateStatus (trimSpace (strTake line 2)) }
        :: getChangedFilesFromLines rest

/-- `GetChangedFiles` from `internal/git/git.go` applied to the raw
stdout of `git status --porcelain` (trimmed by `execGitCommand`, then
scanned line by line). -/
def getChangedFiles (output : String) : List FileStatus :=
  getChangedFilesFromLines (splitOnChar '\n' (trimSpace output))

/-- Go `strings.ToLower` (character level). -/
def toLowerString (s : String) : String :=
  ⟨s.data.map Char.toLower⟩

/-- `promptYesNo` from `internal/git/git.go`: reads one token and
compares its lower-casing with `"y"`. -/
def promptYesNo (response : String) : Bool :=
  toLowerString response = "y"

/-! ### Version-control adapter, interactive part

`EnsureFilesAreStaged` shells out and reads the terminal; it is embedded
as a function of an environment recording the outcome of each external
interaction, returning the list of effects performed and the result. -/

/-- One observable effect of `EnsureFilesAreStaged`. -/
inductive GitEffect where
  /-- `git diff --name-only --cached` was run. -/
  | listStaged
  /-- `git status --porcelain` was run. -/
  | listChanged
  /-- The changed files were printed, one `status: path` line each. -/
  | printFiles (files : List FileStatus)
  /-- The stage-all yes/no question was displayed and an answer read. -/
  | promptStage
  /-- `git add .` was run. -/
  | stageAll
deriving DecidableEq, Repr

/-- Errors `EnsureFilesAreStaged` can return. -/
inductive EnsureError where
  /-- A subprocess could not be run or exited non-zero. -/
  | commandError
  /-- "no changes detected" -/
  | noChanges
  /-- "no staged files" -/
  | nothingStaged
  /-- "error staging files: ..." -/
  | stageError
deriving DecidableEq, Repr

/-- Environment for one run of `EnsureFilesAreStaged`: the raw stdout of
each git subprocess (or its failure), the token the user types at the
stage-all prompt, and whether `git add .` succeeds. -/
structure GitEnv where
  stagedOutput : Except Unit String
  changedOutput : Except Unit String
  promptResponse : String
  stageAllOk : Bool
deriving Repr

/-- `EnsureFilesAreStaged` from `internal/git/git.go`: if no files are
staged, list the changed files; when none exist fail with
"no changes detected"; otherwise print them, prompt, and on "yes" run
`git add .`, failing with "no staged files" on any other answer. -/
def ensureFilesAreStaged (env : GitEnv) : List GitEffect × Except EnsureError Unit :=
  match env.stagedOutput with
  | .error _ => ([.listStaged], .error .commandError)
  | .ok out =>
    if (getStagedFiles out).length = 0 then
      match env.changedOutput with
      | .error _ => ([.listStaged, .listChanged], .error .commandError)
      | .ok cout =>
        let changed := getChangedFiles cout
        if changed.length = 0 then
          ([.listStaged, .listChanged], .error .noChanges)
        else
          if promptYesNo env.promptResponse then
            if env.stageAllOk then
              ([.listStaged, .listChanged, .printFiles changed, .promptStage, .stageAll], .ok ())
            else
              ([.listStaged, .listChanged, .printFiles changed, .promptStage, .stageAll],
                .error .stageError)
          else
            ([.listStaged, .listChanged, .printFiles changed, .promptStage],
              .error .nothingStaged)
    else ([.listStaged], .ok ())

/-! ### Configuration store (`internal/config/config.go`)

The configuration file is a JSON object with the two string fields
`GROQ_APIKEY` and `COMMIT_PROMPT`.  The on-disk state is embedded as
either a missing file, a well-formed file holding a `Config` (Go's JSON
marshal/unmarshal round-trips the two string fields exactly, so the file
is identified with the struct it encodes), or an unreadable/corrupt
file. -/

/-- `Config` from `internal/config/config.go`. -/
structure Config where
  groqAPIKey : String
  commitPrompt : String
deriving DecidableEq, Repr

/-- The state of the configuration file on disk. -/
inductive ConfigFile where
  | missing
  | valid (c : Config)
  | corrupt
deriving DecidableEq, Repr

/-- Errors of the configuration store. -/
inductive ConfigError where
  /-- "failed to read config file" / "failed to parse config file" -/
  | loadError
  /-- "unknown config key: ..." (`ErrUnknownKey`) -/
  | unknownKey (key : String)
deriving DecidableEq, Repr

/-- `loadConfig` from `internal/config/config.go`: a missing file loads
as the empty configuration; a present-but-corrupt file is an error. -/
def loadConfig : ConfigFile → Except ConfigError Config
  | .missing => .ok ⟨"", ""⟩
  | .valid c => .ok c
  | .corrupt => .error .loadError

/-- `saveConfig` from `internal/config/config.go`: rewrites the whole
file with the marshalled configuration. -/
def saveConfig (c : Config) : ConfigFile :=
  .valid c

/-- `SetConfig` from `internal/config/config.go`: load, mutate the one
recognised field, save; an unrecognised key is rejected before any
write.  Returns the file state after the call and the result. -/
def setConfig (key value : String) (file : ConfigFile) :
    ConfigFile × Except ConfigError Unit :=
  match loadConfig file with
  | .error e => (file, .error e)
  | .ok c =>
    if key = "GROQ_APIKEY" then
      (saveConfig { c with groqAPIKey := value }, .ok ())
    else if key = "COMMIT_PROMPT" then
      (saveConfig { c with commitPrompt := value }, .ok ())
    else (file, .error (.unknownKey key))

/-- `GetConfig` from `internal/config/config.go`: load and return the
requested field; an unrecognised key is an error. -/
def getConfig (key : String) (file : ConfigFile) : Except ConfigError String :=
  match loadConfig file with
  | .error e => .error e
  | .ok c =>
    if key = "GROQ_APIKEY" then .ok c.groqAPIKey
    else if key = "COMMIT_PROMPT" then .ok c.commitPrompt
    else .error (.unknownKey key)

/-! ### Completion client (`internal/groq/client.go`)

`Client.GenerateCompletion` marshals the request, does one POST, checks
the status code against `http.StatusOK`, and parses the body.  The wire
exchange is embedded as the status code of the response together with
the parse outcome of its body. -/

/-- One choice of `CompletionResponse` (only the message content is
read). -/
structure Choice where
  content : String
deriving DecidableEq, Repr

/-- `CompletionResponse` from `internal/groq/client.go`. -/
structure CompletionResponse where
  choices : List Choice
deriving DecidableEq, Repr

/-- The body of an HTTP response, as seen by `json.Unmarshal`. -/
inductive RespBody where
  /-- `json.Unmarshal` fails on this body. -/
  | malformed
  /-- The body decodes to this `CompletionResponse`. -/
  | parsed (r : CompletionResponse)
deriving DecidableEq, Repr

/-- Errors of `Client.GenerateCompletion`. -/
inductive GroqError where
  /-- "request failed: ..." (transport error, no response). -/
  | requestFailed
  /-- "unexpected status code: %d" (the spec's `UpstreamError`). -/
  | upstreamError (code : Nat)
  /-- "failed to unmarshal response: ..." -/
  | unmarshalError
  /-- "no completion choices returned" (the spec's `EmptyResponse`). -/
  | emptyResponse
deriving DecidableEq, Repr

/-- Effects of `Client.GenerateCompletion`. -/
inductive GroqEffect where
  /-- One HTTPS POST to the completions endpoint. -/
  | httpPost
deriving DecidableEq, Repr

/-- Body parsing of `Client.GenerateCompletion` (after the status
check): unmarshal, reject an empty `choices` array, return the first
choice's content. -/
def parseCompletionBody (body : RespBody) : Except GroqError String :=
  match body with
  | .malformed => .error .unmarshalError
  | .parsed r =>
    match r.choices with
    | [] => .error .emptyResponse
    | c :: _ => .ok c.content

/-- Response handling of `Client.GenerateCompletion` from
`internal/groq/client.go`: a status code other than `http.StatusOK`
(200) fails with "unexpected status code: %d"; otherwise the body is
parsed. -/
def handleResponse (statusCode : Nat) (body : RespBody) : Except GroqError String :=
  if statusCode ≠ 200 then .error (.upstreamError statusCode)
  else parseCompletionBody body

/-- `Client.GenerateCompletion` from `internal/groq/client.go` as a
function of the network's answer (transport failure, or a status code
and body): one POST is issued, then the response is handled; there is no
retry loop. -/
def generateCompletion (netResp : Except Unit (Nat × RespBody)) :
    List GroqEffect × Except GroqError String :=
  match netResp with
  | .error _ => ([.httpPost], .error .requestFailed)
  | .ok (code, body) => ([.httpPost], handleResponse code body)

/-! ### Orchestrator (`cmd/ai-generate-commit/main.go`) -/

/-- One top-level step the `main` dispatch can run. -/
inductive MainStep where
  /-- `runGenerate()` was invoked. -/
  | runGenerateStep
  /-- `config.SetConfig` was invoked (the `setConfig` subcommand). -/
  | setConfigStep
  /-- `config.GetConfig` was invoked (the `getConfig` subcommand). -/
  | getConfigStep
  /-- The configuration path was printed (the `getConfigPath` subcommand). -/
  | getConfigPathStep
  /-- "Unknown command" was printed and the process exited non-zero. -/
  | unknownCommandStep
deriving DecidableEq, Repr

/-- The `main` dispatch from `cmd/ai-generate-commit/main.go`, as the
sequence of top-level steps it invokes.  `args` is `os.Args` without the
program name.  With no subcommand it runs `runGenerate` and returns;
otherwise it switches on `os.Args[1]`; the `generate` case contains a
second, nested switch on the same `os.Args[1]` followed by an
unconditional further `runGenerate()` call. -/
def mainDispatch (args : List String) : List MainStep :=
  match args with
  | [] => [.runGenerateStep]
  | cmd :: _ =>
    if cmd = "setConfig" then [.setConfigStep]
    else if cmd = "getConfig" then [.getConfigStep]
    else if cmd = "getConfigPath" then [.getConfigPathStep]
    else if cmd = "generate" then
      (if cmd = "setConfig" then [MainStep.setConfigStep]
       else if cmd = "getConfig" then [MainStep.getConfigStep]
       else if cmd = "getConfigPath" then [MainStep.getConfigPathStep]
       else if cmd = "generate" then [MainStep.runGenerateStep]
       else [MainStep.unknownCommandStep])
        ++ [.runGenerateStep]
    else [.unknownCommandStep]

/-- One observable effect of `runGenerate`. -/
inductive Effect where
  /-- `git rev-parse --is-inside-work-tree` was run. -/
  | assertRepo
  /-- An effect of the `EnsureFilesAreStaged` call. -/
  | git (g : GitEffect)
  /-- `git diff --name-only --cached` was run (the list passed to the
  diff command). -/
  | listStagedFiles
  /-- `git diff --staged -- <files>` was run. -/
  | fetchDiff (files : List String)
  /-- `service.GenerateCommitMessage` was invoked: the request to the
  completion endpoint. -/
  | completionRequest
  /-- The generated message was displayed. -/
  | printMessage (msg : String)
  /-- The use-this-commit-message question was displayed and a line
  read. -/
  | promptConfirm
  /-- `git commit -m <msg>` was run. -/
  | commit (msg : String)
  /-- A plain line of output. -/
  | printLine (s : String)
deriving DecidableEq, Repr

/-- How `runGenerate` ends: `log.Fatal` (message printed, exit 1) or a
normal return (exit 0). -/
inductive Outcome where
  | fatal (msg : String)
  | success
deriving DecidableEq, Repr

/-- Environment for one run of `runGenerate`: outcomes of every
external interaction in program order. -/
structure GenEnv where
  /-- Whether `git rev-parse --is-inside-work-tree` succeeds. -/
  repoOk : Bool
  /-- Environment of the `EnsureFilesAreStaged` call. -/
  ensure : GitEnv
  /-- Raw stdout of the second `git diff --name-only --cached`
  (staging in `EnsureFilesAreStaged` may have changed the index). -/
  stagedOutput : Except Unit String
  /-- Raw stdout of `git diff --staged -- <files>` (trimmed by
  `execGitCommand` before `runGenerate` compares it with `""`). -/
  diffOutput : Except Unit String
  /-- Result of `service.GenerateCommitMessage` (the completion call). -/
  completionResult : Except Unit String
  /-- The line the user types at the confirmation prompt. -/
  confirmResponse : String
  /-- Whether `git commit -m` succeeds. -/
  commitOk : Bool

/-- Human-readable messages of the fatal errors of `runGenerate`. -/
def noStagedChangesMsg : String :=
  "No changes detected in the staged files. Please make some changes before generating a commit message."

/-- Message of `ErrNotGitRepo`. -/
def notGitRepoMsg : String := "not a Git repository"

/-- Render an `EnsureError` the way `log.Fatal` would print it. -/
def ensureErrorMsg : EnsureError → String
  | .commandError => "command failed"
  | .noChanges => "no changes detected"
  | .nothingStaged => "no staged files"
  | .stageError => "error staging files"

/-- `runGenerate` from `cmd/ai-generate-commit/main.go`: assert the
repository, ensure files are staged, list the staged files, fetch their
diff, guard against an empty diff, request a completion, display it,
confirm, and commit on `y`/`Y` (after `strings.TrimSpace`), else print
"Commit aborted." and return normally. -/
def runGenerate (env : GenEnv) : List Effect × Outcome :=
  if ¬ env.repoOk then ([.assertRepo], .fatal notGitRepoMsg)
  else
    let ensureRun := ensureFilesAreStaged env.ensure
    let fx0 := Effect.assertRepo :: ensureRun.1.map Effect.git
    match ensureRun.2 with
    | .error e => (fx0, .fatal (ensureErrorMsg e))
    | .ok _ =>
      match env.stagedOutput with
      | .error _ => (fx0 ++ [.listStagedFiles], .fatal "command failed")
      | .ok out =>
        let staged := getStagedFiles out
        match env.diffOutput with
        | .error _ => (fx0 ++ [.listStagedFiles, .fetchDiff staged], .fatal "command failed")
        | .ok rawDiff =>
          let diff := trimSpace rawDiff
          let fx1 := fx0 ++ [.listStagedFiles, .fetchDiff staged]
          if diff = "" then (fx1, .fatal noStagedChangesMsg)
          else
            match env.completionResult with
            | .error _ => (fx1 ++ [.completionRequest], .fatal "completion failed")
            | .ok msg =>
              let fx2 := fx1 ++ [.completionRequest, .printMessage msg, .promptConfirm]
              let response := trimSpace env.confirmResponse
              if response = "y" ∨ response = "Y" then
                if env.commitOk then
                  (fx2 ++ [.commit msg, .printLine "Changes committed successfully."], .success)
                else (fx2 ++ [.commit msg], .fatal "commit failed")
              else (fx2 ++ [.printLine "Commit aborted."], .success)

/-! ### Helper lemmas -/

/-- The `filterEmptyStrings` loop is `List.filter` with the non-empty
predicate. -/
theorem filterEmptyStrings_eq_filter (l : List String) :
    filterEmptyStrings l = l.filter (fun s => s ≠ "") := by
  induction l with
  | nil => rfl
  | cons s rest ih =>
    by_cases h : s = ""
    · simp [filterEmptyStrings, h, ih]
    · simp [filterEmptyStrings, h, ih]

/-! ### Claim theorems -/

/-- Claim C7: for every status code handled by `GetChangedFiles`, the
translation is exact and total: `M`→Modified, `A`→Added, `D`→Deleted,
`R`→Renamed, `C`→Copied, `U`→Updated but unmerged, `??`→Untracked, and
any other code (such as `MM`) translates to `Unknown`. -/
theorem translateStatus_exact_and_total :
    translateStatus "M" = "Modified" ∧
    translateStatus "A" = "Added" ∧
    translateStatus "D" = "Deleted" ∧
    translateStatus "R" = "Renamed" ∧
    translateStatus "C" = "Copied" ∧
    translateStatus "U" = "Updated but unmerged" ∧
    translateStatus "??" = "Untracked" ∧
    translateStatus "MM" = "Unknown" ∧
    ∀ code : String,
      code ∉ (["M", "A", "D", "R", "C", "U", "??"] : List String) →
      translateStatus code = "Unknown" := by
  refine ⟨by decide, by decide, by decide, by decide, by decide, by decide,
    by decide, by decide, ?_⟩
  intro code h
  simp only [List.mem_cons, List.not_mem_nil, or_false, not_or] at h
  obtain ⟨h1, h2, h3, h4, h5, h6, h7⟩ := h
  simp [translateStatus, h1, h2, h3, h4, h5, h6, h7]

/-- Witness for C7: a code outside the recognised set translates to
`Unknown`. -/
theorem translateStatus_exact_and_total_witness :
    translateStatus "XY" = "Unknown" :=
  translateStatus_exact_and_total.2.2.2.2.2.2.2.2 "XY" (by decide)

/-- Claim C8: `GetChangedFiles` skips every line shorter than 4 characters
without error, and the result is exactly the well-formed lines parsed in
their original order. -/
theorem getChangedFiles_skips_short_lines (lines : List String) :
    getChangedFilesFromLines lines =
      (lines.filter (fun l => 4 ≤ strLength l)).map
        (fun l =>
          { path := trimSpace (strDrop l 3),
            status := translateStatus (trimSpace (strTake l 2)) }) := by
  induction lines with
  | nil => rfl
  | cons l rest ih =>
    simp only [getChangedFilesFromLines, List.filter_cons]
    by_cases h : strLength l < 4
    · have h' : ¬ (4 ≤ strLength l) := by omega
      rw [if_pos h, ih]
      simp [h']
    · have h' : 4 ≤ strLength l := by omega
      rw [if_neg h, ih]
      simp [h']

/-- Claim C9: `GetStagedFiles` never returns an empty-string entry; the result
is exactly the non-empty lines of the (trimmed) command output in their
original order. -/
theorem getStagedFiles_no_empty_entries (output : String) :
    "" ∉ getStagedFiles output ∧
    getStagedFiles output =
      (splitOnChar '\n' (trimSpace output)).filter (fun s => s ≠ "") := by
  have hchar : getStagedFiles output =
      (splitOnChar '\n' (trimSpace output)).filter (fun s => s ≠ "") :=
    filterEmptyStrings_eq_filter _
  refine ⟨?_, hchar⟩
  rw [hchar]
  intro hmem
  have := List.of_mem_filter hmem
  simp at this

/-- Claim C3: setting `COMMIT_PROMPT` to any value `v` and then getting
`COMMIT_PROMPT` returns exactly `v` (whenever the configuration file is
readable, which the store requires to perform the set at all); and
getting the API-key entry (`GROQ_APIKEY`) before it has ever been set —
in particular when no configuration file exists — returns the empty
string, not an error. -/
theorem config_roundtrip_and_default :
    (∀ (v : String) (file : ConfigFile), file ≠ ConfigFile.corrupt →
      getConfig "COMMIT_PROMPT" (setConfig "COMMIT_PROMPT" v file).1 =
        Except.ok v) ∧
    getConfig "GROQ_APIKEY" ConfigFile.missing = Except.ok "" ∧
    (∀ v : String,
      getConfig "GROQ_APIKEY" (setConfig "COMMIT_PROMPT" v ConfigFile.missing).1 =
        Except.ok "") := by
  have hne : ¬ (("COMMIT_PROMPT" : String) = "GROQ_APIKEY") := by decide
  refine ⟨?_, rfl, ?_⟩
  · intro v file h
    cases file with
    | missing => simp [setConfig, getConfig, loadConfig, saveConfig, hne]
    | valid c => simp [setConfig, getConfig, loadConfig, saveConfig, hne]
    | corrupt => exact absurd rfl h
  · intro v
    simp [setConfig, getConfig, loadConfig, saveConfig, hne]

/-- Witness for C3: a concrete round trip through a missing file. -/
theorem config_roundtrip_and_default_witness :
    getConfig "COMMIT_PROMPT"
      (setConfig "COMMIT_PROMPT" "use imperative mood" ConfigFile.missing).1 =
      Except.ok "use imperative mood" :=
  config_roundtrip_and_default.1 "use imperative mood" ConfigFile.missing
    (by decide)

/-- Claim C4: `SetConfig` on any key outside the recognised set leaves the
persisted file unchanged (no write happens on the error path), and —
whenever the file is readable, so that the key check is reached — fails
with the unknown-key error. -/
theorem setConfig_unknown_key (key value : String) (file : ConfigFile)
    (h1 : key ≠ "GROQ_APIKEY") (h2 : key ≠ "COMMIT_PROMPT") :
    (setConfig key value file).1 = file ∧
    (file ≠ ConfigFile.corrupt →
      (setConfig key value file).2 =
        Except.error (ConfigError.unknownKey key)) := by
  cases file with
  | missing => exact ⟨by simp [setConfig, loadConfig, h1, h2],
      fun _ => by simp [setConfig, loadConfig, h1, h2]⟩
  | valid c => exact ⟨by simp [setConfig, loadConfig, h1, h2],
      fun _ => by simp [setConfig, loadConfig, h1, h2]⟩
  | corrupt => exact ⟨by simp [setConfig, loadConfig],
      fun h => absurd rfl h⟩

/-- Witness for C4: setting the unrecognised key `FOO` on a missing file
changes nothing and reports the unknown key. -/
theorem setConfig_unknown_key_witness :
    (setConfig "FOO" "bar" ConfigFile.missing).1 = ConfigFile.missing ∧
    (setConfig "FOO" "bar" ConfigFile.missing).2 =
      Except.error (ConfigError.unknownKey "FOO") :=
  ⟨(setConfig_unknown_key "FOO" "bar" ConfigFile.missing (by decide)
      (by decide)).1,
   (setConfig_unknown_key "FOO" "bar" ConfigFile.missing (by decide)
      (by decide)).2 (by decide)⟩

/-- Claim C2, counterexample: an HTTP 201 response is a 2xx success code,
yet the completion call fails with the upstream-status error carrying
201 — the code accepts only status 200, so the claim as stated (every
2xx proceeds to parse) is false. -/
theorem generateCompletion_201_fails :
    (200 ≤ 201 ∧ 201 < 300) ∧
    generateCompletion (Except.ok (201, RespBody.parsed ⟨[⟨"ok"⟩]⟩)) =
      ([GroqEffect.httpPost], Except.error (GroqError.upstreamError 201)) := by
  refine ⟨by omega, ?_⟩
  rfl

/-- Claim C2, amended: the completion call fails with the upstream-status
error for every status code other than 200 — in particular every non-2xx
code, and HTTP 401 fails carrying exactly 401 — a status-200 response
never fails that way and proceeds to parse the body, and exactly one
POST is issued per call (no retry). -/
theorem generateCompletion_status_check :
    (∀ (code : Nat) (body : RespBody), code ≠ 200 →
      generateCompletion (Except.ok (code, body)) =
        ([GroqEffect.httpPost], Except.error (GroqError.upstreamError code))) ∧
    (∀ body : RespBody,
      generateCompletion (Except.ok (200, body)) =
        ([GroqEffect.httpPost], parseCompletionBody body)) ∧
    (∀ netResp : Except Unit (Nat × RespBody),
      (generateCompletion netResp).1 = [GroqEffect.httpPost]) := by
  refine ⟨?_, ?_, ?_⟩
  · intro code body h
    simp [generateCompletion, handleResponse, h]
  · intro body
    simp [generateCompletion, handleResponse]
  · intro netResp
    rcases netResp with _ | ⟨code, body⟩ <;> rfl

/-- Witness for C2 (amended): HTTP 401 fails with the upstream-status
error carrying 401, with exactly one POST. -/
theorem generateCompletion_status_check_witness :
    generateCompletion (Except.ok (401, RespBody.parsed ⟨[]⟩)) =
      ([GroqEffect.httpPost], Except.error (GroqError.upstreamError 401)) :=
  generateCompletion_status_check.1 401 (RespBody.parsed ⟨[]⟩) (by decide)

/-- Claim C6: when the staged-file list and the changed-file list are both
empty, `EnsureFilesAreStaged` fails with "no changes detected", the
stage-all prompt is never displayed and `git add .` is never run. -/
theorem ensureFilesAreStaged_no_changes (env : GitEnv) (so co : String)
    (hs : env.stagedOutput = Except.ok so)
    (hc : env.changedOutput = Except.ok co)
    (h1 : getStagedFiles so = [])
    (h2 : getChangedFiles co = []) :
    ensureFilesAreStaged env =
      ([GitEffect.listStaged, GitEffect.listChanged],
        Except.error EnsureError.noChanges) ∧
    GitEffect.promptStage ∉ (ensureFilesAreStaged env).1 ∧
    GitEffect.stageAll ∉ (ensureFilesAreStaged env).1 := by
  have hmain : ensureFilesAreStaged env =
      ([GitEffect.listStaged, GitEffect.listChanged],
        Except.error EnsureError.noChanges) := by
    simp [ensureFilesAreStaged, hs, hc, h1, h2]
  exact ⟨hmain, by rw [hmain]; decide, by rw [hmain]; decide⟩

/-- Witness for C6: empty outputs of both git commands. -/
theorem ensureFilesAreStaged_no_changes_witness :
    ensureFilesAreStaged ⟨Except.ok "", Except.ok "", "", true⟩ =
      ([GitEffect.listStaged, GitEffect.listChanged],
        Except.error EnsureError.noChanges) :=
  (ensureFilesAreStaged_no_changes ⟨Except.ok "", Except.ok "", "", true⟩
    "" "" rfl rfl (by decide) (by decide)).1

/-- Claim C5: whenever the generate flow reaches the diff step and the fetched
staged diff is the empty string, the flow dies with the
no-staged-changes message and no request to the completion endpoint is
ever made in that run. -/
theorem runGenerate_empty_diff_no_network (env : GenEnv) (so rawDiff : String)
    (hrepo : env.repoOk = true)
    (hens : (ensureFilesAreStaged env.ensure).2 = Except.ok ())
    (hso : env.stagedOutput = Except.ok so)
    (hdiff : env.diffOutput = Except.ok rawDiff)
    (hempty : trimSpace rawDiff = "") :
    (runGenerate env).2 = Outcome.fatal noStagedChangesMsg ∧
    Effect.completionRequest ∉ (runGenerate env).1 := by
  have hrun : runGenerate env =
      (Effect.assertRepo :: (ensureFilesAreStaged env.ensure).1.map Effect.git ++
        [Effect.listStagedFiles, Effect.fetchDiff (getStagedFiles so)],
        Outcome.fatal noStagedChangesMsg) := by
    simp [runGenerate, hrepo, hens, hso, hdiff, hempty]
  constructor
  · rw [hrun]
  · rw [hrun]
    simp

/-- Witness for C5: a run with one staged file whose staged diff is
empty. -/
theorem runGenerate_empty_diff_no_network_witness :
    (runGenerate ⟨true, ⟨Except.ok "f.go", Except.ok "", "", true⟩,
        Except.ok "f.go", Except.ok "", Except.ok "msg", "", true⟩).2 =
      Outcome.fatal noStagedChangesMsg ∧
    Effect.completionRequest ∉
      (runGenerate ⟨true, ⟨Except.ok "f.go", Except.ok "", "", true⟩,
        Except.ok "f.go", Except.ok "", Except.ok "msg", "", true⟩).1 :=
  runGenerate_empty_diff_no_network
    ⟨true, ⟨Except.ok "f.go", Except.ok "", "", true⟩,
      Except.ok "f.go", Except.ok "", Except.ok "msg", "", true⟩
    "f.go" "" rfl rfl rfl rfl rfl

/-- Claim C10: in a run of the generate flow that reaches the confirmation
step, the commit command is run if and only if the whitespace-trimmed
response is exactly `y` or exactly `Y` (and then with the generated
message verbatim); every other response — `yes` included — runs no
commit, prints "Commit aborted." and ends the flow successfully. -/
theorem runGenerate_confirmation (env : GenEnv) (so rawDiff msg : String)
    (hrepo : env.repoOk = true)
    (hens : (ensureFilesAreStaged env.ensure).2 = Except.ok ())
    (hso : env.stagedOutput = Except.ok so)
    (hdiff : env.diffOutput = Except.ok rawDiff)
    (hne : trimSpace rawDiff ≠ "")
    (hcomp : env.completionResult = Except.ok msg) :
    ((trimSpace env.confirmResponse = "y" ∨ trimSpace env.confirmResponse = "Y") →
      Effect.commit msg ∈ (runGenerate env).1) ∧
    (¬ (trimSpace env.confirmResponse = "y" ∨ trimSpace env.confirmResponse = "Y") →
      (∀ m : String, Effect.commit m ∉ (runGenerate env).1) ∧
      (runGenerate env).2 = Outcome.success ∧
      Effect.printLine "Commit aborted." ∈ (runGenerate env).1) := by
  constructor
  · intro hyes
    by_cases hcommit : env.commitOk
    · have hrun : runGenerate env =
          ((Effect.assertRepo :: (ensureFilesAreStaged env.ensure).1.map Effect.git ++
            [Effect.listStagedFiles, Effect.fetchDiff (getStagedFiles so)]) ++
            [Effect.completionRequest, Effect.printMessage msg, Effect.promptConfirm] ++
            [Effect.commit msg, Effect.printLine "Changes committed successfully."],
            Outcome.success) := by
        simp [runGenerate, hrepo, hens, hso, hdiff, hne, hcomp, hyes, hcommit]
      rw [hrun]
      simp
    · have hrun : runGenerate env =
          ((Effect.assertRepo :: (ensureFilesAreStaged env.ensure).1.map Effect.git ++
            [Effect.listStagedFiles, Effect.fetchDiff (getStagedFiles so)]) ++
            [Effect.completionRequest, Effect.printMessage msg, Effect.promptConfirm] ++
            [Effect.commit msg],
            Outcome.fatal "commit failed") := by
        simp [runGenerate, hrepo, hens, hso, hdiff, hne, hcomp, hyes, hcommit]
      rw [hrun]
      simp
  · intro hno
    have hrun : runGenerate env =
        ((Effect.assertRepo :: (ensureFilesAreStaged env.ensure).1.map Effect.git ++
          [Effect.listStagedFiles, Effect.fetchDiff (getStagedFiles so)]) ++
          [Effect.completionRequest, Effect.printMessage msg, Effect.promptConfirm] ++
          [Effect.printLine "Commit aborted."],
          Outcome.success) := by
      simp [runGenerate, hrepo, hens, hso, hdiff, hne, hcomp, hno]
    refine ⟨?_, by rw [hrun], by rw [hrun]; simp⟩
    intro m
    rw [hrun]
    simp

/-- Witness for C10: the response `yes` does not commit; the flow prints
"Commit aborted." and ends successfully. -/
theorem runGenerate_confirmation_witness :
    (∀ m : String, Effect.commit m ∉
      (runGenerate ⟨true, ⟨Except.ok "f.go", Except.ok "", "", true⟩,
        Except.ok "f.go", Except.ok "diff text", Except.ok "msg", "yes", true⟩).1) ∧
    (runGenerate ⟨true, ⟨Except.ok "f.go", Except.ok "", "", true⟩,
      Except.ok "f.go", Except.ok "diff text", Except.ok "msg", "yes", true⟩).2 =
      Outcome.success ∧
    Effect.printLine "Commit aborted." ∈
      (runGenerate ⟨true, ⟨Except.ok "f.go", Except.ok "", "", true⟩,
        Except.ok "f.go", Except.ok "diff text", Except.ok "msg", "yes", true⟩).1 :=
  (runGenerate_confirmation
    ⟨true, ⟨Except.ok "f.go", Except.ok "", "", true⟩,
      Except.ok "f.go", Except.ok "diff text", Except.ok "msg", "yes", true⟩
    "f.go" "diff text" "msg" rfl rfl rfl rfl (by decide) rfl).2 (by decide)

/-- Claim C1: evaluating the `main` dispatch of `cmd/ai-generate-commit/main.go`
shows that the explicit subcommand `generate` invokes the generate flow
twice — the nested duplicated switch calls `runGenerate()` and then
falls through to a second unconditional `runGenerate()` call — while an
invocation with no subcommand invokes it exactly once. -/
theorem mainDispatch_generate_runs_twice :
    mainDispatch ["generate"] =
      [MainStep.runGenerateStep, MainStep.runGenerateStep] ∧
    (mainDispatch ["generate"]).count MainStep.runGenerateStep = 2 ∧
    mainDispatch [] = [MainStep.runGenerateStep] := by
  decide

end AIGenCommit
